import Mathlib

/-!
Verification development for the orchestra workflow backend.

The definitions below are shallow embeddings of the Python sources:
  - backend/services/checkpoint_manager.py
  - backend/services/workflow_manager.py
  - backend/api/workflows.py
  - backend/workflows/plan_review.py
  - backend/agents/factory.py, cli_agent.py, claude_agent.py

Pure functions become Lean functions; database effects become explicit
table-transformer functions; fallible code returns `Except`/`Option`.
-/

/-! ## Python-style string helpers (List Char based) -/

/-- Characters treated as whitespace by Python's `str.strip` (ASCII range). -/
def py_ws (c : Char) : Bool :=
  c = ' ' || c = '\t' || c = '\n' || c = '\r' || c = '\x0b' || c = '\x0c'

/-- Model of Python `str.strip()` on a character list. -/
def py_strip_list (cs : List Char) : List Char :=
  ((cs.dropWhile py_ws).reverse.dropWhile py_ws).reverse

/-- Model of Python `str.strip()`. -/
def py_strip (s : String) : String :=
  ⟨py_strip_list s.data⟩

/-- Model of Python `str.lower()` on a character list (ASCII inputs). -/
def py_lower_list (cs : List Char) : List Char :=
  cs.map Char.toLower

/-- Prefix test on character lists. -/
def lstarts : List Char → List Char → Bool
  | [], _ => true
  | _ :: _, [] => false
  | p :: ps, c :: cs => p = c && lstarts ps cs

/-- Model of Python's `needle in haystack` substring test. -/
def lcontains (needle : List Char) : List Char → Bool
  | [] => needle.isEmpty
  | c :: rest => lstarts needle (c :: rest) || lcontains needle rest

/-- Model of Python `str.split(sep)` for a single separator char, keeping empties. -/
def lsplit (sep : Char) : List Char → List (List Char)
  | [] => [[]]
  | c :: rest =>
    match lsplit sep rest with
    | [] => [[c]]
    | l :: ls => if c = sep then [] :: l :: ls else (c :: l) :: ls

/-! ## Checkpoint resolution status maps

From `backend/services/checkpoint_manager.py` (`_save_checkpoint_resolution`)
and `backend/api/workflows.py` (`save_checkpoint_resolution`).  Each function
models `status_map.get(action, "approved")` over the literal dict in the
respective file. -/

/-- Status map of `CheckpointManager._save_checkpoint_resolution`
(checkpoint_manager.py lines 357-367).  Note: it has no entry for
`edit_full_prompt`. -/
def cm_status_map (action : String) : String :=
  if action = "send_to_reviewers" then "approved"
  else if action = "send_to_planner_for_revision" then "approved"
  else if action = "request_revision" then "approved"
  else if action = "approve_plan" then "approved"
  else if action = "approve" then "approved"
  else if action = "edit_and_continue" then "edited"
  else if action = "edit_prompt_and_revise" then "edited"
  else if action = "cancel" then "rejected"
  else "approved"

/-- Status map of `save_checkpoint_resolution` in api/workflows.py
(lines 79-90), which carries the extra `edit_full_prompt` entry. -/
def api_status_map (action : String) : String :=
  if action = "send_to_reviewers" then "approved"
  else if action = "send_to_planner_for_revision" then "approved"
  else if action = "request_revision" then "approved"
  else if action = "approve_plan" then "approved"
  else if action = "approve" then "approved"
  else if action = "edit_and_continue" then "edited"
  else if action = "edit_prompt_and_revise" then "edited"
  else if action = "edit_full_prompt" then "edited"
  else if action = "cancel" then "rejected"
  else "approved"

/-- The action-to-status table exactly as the specification words it:
five actions map to approved, three to edited, cancel to rejected, unknown
actions default to approved. -/
def claimed_status_table (action : String) : String :=
  if action ∈ ["send_to_reviewers", "send_to_planner_for_revision",
               "request_revision", "approve_plan", "approve"] then "approved"
  else if action ∈ ["edit_and_continue", "edit_prompt_and_revise",
                    "edit_full_prompt"] then "edited"
  else if action = "cancel" then "rejected"
  else "approved"

/-! ## user_checkpoints table model

Rows are (id, status) pairs; `id` is the primary key.  From
checkpoint_manager.py `_save_checkpoint_to_db` (plain INSERT whose failure is
caught by the caller), api/workflows.py `save_checkpoint_created`
(INSERT OR IGNORE) and the two UPDATE-based resolution writers. -/

abbrev CpTable := List (String × String)

/-- Whether the table contains a row with the given id. -/
def cp_has_id (t : CpTable) (id : String) : Bool :=
  t.any (fun r => r.1 = id)

/-- Model of `save_checkpoint_created` (INSERT OR IGNORE, status `pending`). -/
def save_checkpoint_created (t : CpTable) (id : String) : CpTable :=
  if cp_has_id t id then t else t ++ [(id, "pending")]

/-- Model of `CheckpointManager._save_checkpoint_to_db` as observed by its
caller `create_checkpoint`: a plain INSERT whose IntegrityError on a duplicate
primary key is caught and swallowed, so the table is unchanged in that case. -/
def save_checkpoint_to_db_caught (t : CpTable) (id : String) : CpTable :=
  if cp_has_id t id then t else t ++ [(id, "pending")]

/-- Model of the UPDATE in either resolution writer: set the status of the row
with the given id (primary-key unique, so at most one row changes). -/
def cp_update (t : CpTable) (id status : String) : CpTable :=
  t.map (fun r => if r.1 = id then (r.1, status) else r)

/-- Number of rows carrying the given id. -/
def cp_count (t : CpTable) (id : String) : Nat :=
  (t.filter (fun r => r.1 = id)).length

/-- Status of the row with the given id, if present. -/
def cp_status (t : CpTable) (id : String) : Option String :=
  (t.filter (fun r => r.1 = id)).head?.map (fun r => r.2)

/-- Database operations touching `user_checkpoints`, used to count how often a
row is written during a resume. -/
inductive CpOp where
  | insertIgnore (id : String)
  | insertPlainCaught (id : String)
  | update (id status : String)
deriving DecidableEq, Repr

def cp_apply (t : CpTable) : CpOp → CpTable
  | .insertIgnore id => save_checkpoint_created t id
  | .insertPlainCaught id => save_checkpoint_to_db_caught t id
  | .update id status => cp_update t id status

def cp_apply_all (t : CpTable) (ops : List CpOp) : CpTable :=
  ops.foldl cp_apply t

/-- Number of UPDATE operations in a trace that target the given id. -/
def cp_updates_to (ops : List CpOp) (id : String) : Nat :=
  (ops.filter (fun op => match op with
    | .update i _ => i = id
    | _ => false)).length

/-- Trace of `user_checkpoints` writes while a pending checkpoint `origId` is
resumed with `action` and the run continues to the next suspension or END.
From `resume_workflow_execution` (api/workflows.py lines 380-432) and the
re-execution of `CheckpointManager.create_checkpoint` when LangGraph re-enters
the suspended node from the top: the API writer updates the original row, the
re-entered node inserts a row under the fresh uuid generated on re-entry, and
the manager's resolution writer updates that fresh row. -/
def resume_trace (origId freshId action : String) : List CpOp :=
  [ .update origId (api_status_map action),
    .insertPlainCaught freshId,
    .update freshId (cm_status_map action) ]

/-! ## Workflow status transitions

From `backend/services/workflow_manager.py`. -/

/-- The `StatusTransition` enum as the (from, to) pairs of its members. -/
def status_transition_enum : List (String × String) :=
  [ ("pending", "running"),
    ("running", "awaiting_checkpoint"),
    ("running", "completed"),
    ("running", "failed"),
    ("running", "cancelled"),
    ("awaiting_checkpoint", "running"),
    ("awaiting_checkpoint", "completed"),
    ("awaiting_checkpoint", "failed"),
    ("awaiting_checkpoint", "cancelled") ]

/-- Model of `_build_transition_map` followed by lookup: the set of target
statuses reachable from `fromStatus` according to the enum. -/
def valid_next_states (fromStatus : String) : List String :=
  (status_transition_enum.filter (fun p => p.1 = fromStatus)).map (fun p => p.2)

/-- Model of `WorkflowStatusManager.validate_transition`.  `active` is the
in-memory entry for the workflow: `none` when the workflow is not in
`active_workflows` (rejected), `some none`/`some (some "")` when the entry has
no current status (defensively allowed), otherwise the current status. -/
def validate_transition (active : Option (Option String)) (toStatus : String) : Bool :=
  match active with
  | none => false
  | some current =>
    match current with
    | none => true
    | some c =>
      if c = "" then true
      else (valid_next_states c).contains toStatus

/-- Model of `mark_failed` with `validate=True`: an invalid transition only
logs a warning, and the status write to `failed` is performed regardless. -/
def mark_failed_written_status (_active : Option (Option String)) : String :=
  "failed"

/-- Model of `mark_completed` with the given `validate` flag: raises
(`Except.error`) on an invalid transition when validating, otherwise writes
`completed`. -/
def mark_completed_written_status (active : Option (Option String))
    (validate : Bool) : Except String String :=
  if validate && !(validate_transition active "completed") then
    .error "Invalid transition"
  else
    .ok "completed"

/-- The transition relation exactly as the specification words it:
pending to running; running to awaiting_checkpoint/completed/failed/cancelled;
awaiting_checkpoint to running/completed/failed/cancelled; all others
rejected. -/
def claimed_allowed (c t : String) : Bool :=
  (c = "pending" && t = "running") ||
  (c = "running" &&
    (t = "awaiting_checkpoint" || t = "completed" || t = "failed" || t = "cancelled")) ||
  (c = "awaiting_checkpoint" &&
    (t = "running" || t = "completed" || t = "failed" || t = "cancelled"))

/-- The six workflow statuses of `WorkflowStatus` (models/workflow.py). -/
def workflow_statuses : List String :=
  ["pending", "running", "awaiting_checkpoint", "completed", "failed", "cancelled"]

/-! ## Plan-review workflow state and checkpoint resolutions

From `backend/workflows/plan_review.py` (`PlanReviewState`, node functions,
conditional edges) and `backend/services/checkpoint_manager.py` (the
second phase of each `create_*_checkpoint`, i.e. the state updates computed
after `interrupt` returns the user's resolution). -/

/-- The fields of `PlanReviewState` that the claims observe.  TypedDict keys
that a run may not have set yet are `Option`s (Python `state.get` defaults). -/
structure WState where
  messages : List String
  currentPlan : String
  reviewFeedback : List String
  iterationCount : Nat
  checkpointNumber : Nat
  status : String
  userEdits : Option String
  nextStep : Option String
  reviewerPrompt : Option String
  plannerPrompt : Option String
  retryAgent : Option Bool
  consolidatedFeedback : Option String
deriving DecidableEq, Repr

/-- Initial state built by `execute_workflow` (api/workflows.py lines 229-235). -/
def initial_wstate (initialPrompt : String) : WState :=
  { messages := [initialPrompt]
    currentPlan := ""
    reviewFeedback := []
    iterationCount := 0
    checkpointNumber := 0
    status := "starting"
    userEdits := none
    nextStep := none
    reviewerPrompt := none
    plannerPrompt := none
    retryAgent := none
    consolidatedFeedback := none }

/-- A checkpoint resolution as passed to `resume`: the `action` and
`edited_content` keys of the dict (absent keys are `none`). -/
structure Resolution where
  action : Option String
  editedContent : Option String
deriving DecidableEq, Repr

/-- State updates of the success branch of `_planning_agent_node`, merged into
the state (messages append by `operator.add`, other keys overwrite). -/
def planning_agent_apply (st : WState) (plan : String) : WState :=
  { st with
    currentPlan := plan
    status := "plan_created"
    messages := st.messages ++ [plan]
    checkpointNumber := st.checkpointNumber + 1
    retryAgent := none }

/-- State updates of the all-successful branch of `_review_agents_node` for
the scripted reviews `revs`. -/
def review_agents_apply (st : WState) (revs : List String) : WState :=
  { st with
    reviewFeedback := revs
    status := "reviews_collected"
    messages := st.messages ++ revs
    checkpointNumber := st.checkpointNumber + 1 }

/-- Resolution phase of `CheckpointManager.create_plan_review_checkpoint`
(checkpoint_manager.py lines 143-175): `send_to_reviewers`,
`edit_and_continue`, and the `else` branch treated as cancel. -/
def plan_review_checkpoint_apply (st : WState) (res : Resolution) : WState :=
  let plan := st.currentPlan
  let action := res.action.getD "send_to_reviewers"
  let editedPlan := res.editedContent.getD plan
  if action = "send_to_reviewers" then
    { st with
      userEdits := some editedPlan
      status := "ready_for_review"
      nextStep := some "review_agents"
      messages := st.messages ++ ["[User approved plan for review]"] }
  else if action = "edit_and_continue" then
    { st with
      userEdits := some editedPlan
      status := "editing_reviewer_prompt"
      nextStep := some "edit_reviewer_prompt"
      messages := st.messages ++ ["[User wants to edit full reviewer prompt]"] }
  else
    { st with
      status := "cancelled"
      nextStep := some "end"
      messages := st.messages ++ ["[User cancelled workflow]"] }

/-- Model of `PlanReviewWorkflow._consolidate_reviews`. -/
def consolidate_reviews (feedback : List String) : String :=
  "=== CONSOLIDATED REVIEW FEEDBACK ===\n\n"
    ++ String.join (feedback.map (fun fb =>
        "## REVIEW AGENT\n\n" ++ fb ++ "\n\n"
          ++ String.mk (List.replicate 60 '=') ++ "\n\n"))
    ++ "\n=== USER CONSOLIDATION ===\n"
    ++ "[Edit this section to provide consolidated feedback to the PLANNING AGENT]\n\n"

/-- Resolution phase of
`CheckpointManager.create_review_consolidation_checkpoint`
(checkpoint_manager.py lines 284-324). -/
def review_consolidation_checkpoint_apply (st : WState) (res : Resolution) : WState :=
  let consolidated := consolidate_reviews st.reviewFeedback
  let action := res.action.getD "request_revision"
  let editedFeedback := res.editedContent.getD consolidated
  if action = "request_revision" then
    { st with
      consolidatedFeedback := some editedFeedback
      status := "revision_needed"
      nextStep := some "planning_agent"
      messages := st.messages ++ ["[User requested plan revision based on reviews]"] }
  else if action = "edit_prompt_and_revise" then
    { st with
      consolidatedFeedback := some editedFeedback
      status := "editing_planner_prompt"
      nextStep := some "edit_planner_prompt"
      messages := st.messages ++ ["[User wants to edit planner prompt before revision]"] }
  else if action = "approve_plan" then
    { st with
      status := "completed"
      nextStep := some "end"
      messages := st.messages ++ ["[User approved plan without revision]"] }
  else
    { st with
      status := "cancelled"
      nextStep := some "end"
      messages := st.messages ++ ["[User cancelled workflow]"] }

/-- Resolution phase of `CheckpointManager.create_prompt_edit_checkpoint`
(checkpoint_manager.py lines 212-249).  `stepName` is `edit_reviewer_prompt`
or `edit_planner_prompt`; only the latter increments `iteration_count`. -/
def prompt_edit_checkpoint_apply (st : WState) (prompt stepName primaryAction : String)
    (res : Resolution) : WState :=
  let action := res.action.getD primaryAction
  let editedPrompt := res.editedContent.getD prompt
  if action = "cancel" then
    { st with
      status := "cancelled"
      nextStep := some "end"
      messages := st.messages ++ ["[User cancelled workflow]"] }
  else if stepName = "edit_reviewer_prompt" then
    { st with
      reviewerPrompt := some editedPrompt
      status := "ready_for_review"
      messages := st.messages ++ ["[User edited reviewer prompt and approved for review]"]
      checkpointNumber := st.checkpointNumber + 1 }
  else if stepName = "edit_planner_prompt" then
    { st with
      plannerPrompt := some editedPrompt
      status := "revision_needed"
      iterationCount := st.iterationCount + 1
      messages := st.messages ++ ["[User edited planner prompt and requested revision]"]
      checkpointNumber := st.checkpointNumber + 1 }
  else
    st

/-! ## Conditional edges of the compiled graph

Direct translations of the lambdas in `PlanReviewWorkflow._build_graph`
(plan_review.py lines 139-192); the label `end` stands for `END`. -/

def route_planning_agent (st : WState) : String :=
  if st.retryAgent.getD false then "planning_agent"
  else if st.nextStep = some "end" then "end"
  else "plan_checkpoint"

def route_plan_checkpoint (st : WState) : String :=
  st.nextStep.getD "review_agents"

def route_review_agents (st : WState) : String :=
  if st.retryAgent.getD false then "review_agents"
  else if st.nextStep = some "review_checkpoint" || st.nextStep = some "end" then
    st.nextStep.getD "review_checkpoint"
  else "review_checkpoint"

def route_review_checkpoint (st : WState) : String :=
  st.nextStep.getD "end"

/-- Label-to-node dict of the conditional edge leaving `plan_checkpoint`
(plan_review.py lines 154-162): the label `edit_reviewer_prompt` is wired to
the node `edit_reviewer_prompt_checkpoint`, the other entries map a label to
the node of the same name.  A label outside the dict cannot arise: the
resolution phase always sets `next_step` to one of the dict's labels. -/
def plan_checkpoint_edge_target (label : String) : String :=
  if label = "edit_reviewer_prompt" then "edit_reviewer_prompt_checkpoint" else label

/-- Label-to-node dict of the conditional edge leaving `review_checkpoint`
(plan_review.py lines 182-190): the label `edit_planner_prompt` is wired to
the node `edit_planner_prompt_checkpoint`, the other entries map a label to
the node of the same name. -/
def review_checkpoint_edge_target (label : String) : String :=
  if label = "edit_planner_prompt" then "edit_planner_prompt_checkpoint" else label

/-! ## Scenario interpreter

Runs the compiled graph for scenarios in which every agent invocation
succeeds (planner output and the three review outputs are scripted constants)
and every checkpoint consumes the next scripted resolution.  This follows the
node wiring of `_build_graph` with entry `planning_agent`. -/

inductive RunOutcome where
  | finished (st : WState)
  | suspendedAt (node : String) (st : WState)
  | outOfFuel
deriving DecidableEq, Repr

def run_graph : Nat → String → WState → List Resolution → RunOutcome
  | 0, _, _, _ => .outOfFuel
  | _ + 1, "end", st, _ => .finished st
  | fuel + 1, "planning_agent", st, script =>
    let st2 := planning_agent_apply st "PLAN"
    run_graph fuel (route_planning_agent st2) st2 script
  | fuel + 1, "plan_checkpoint", st, script =>
    match script with
    | [] => .suspendedAt "plan_checkpoint" st
    | r :: rest =>
      let st2 := plan_review_checkpoint_apply st r
      run_graph fuel (plan_checkpoint_edge_target (route_plan_checkpoint st2)) st2 rest
  | fuel + 1, "edit_reviewer_prompt_checkpoint", st, script =>
    match script with
    | [] => .suspendedAt "edit_reviewer_prompt_checkpoint" st
    | r :: rest =>
      let st2 := prompt_edit_checkpoint_apply st "REVIEWER_PROMPT"
        "edit_reviewer_prompt" "send_to_reviewers" r
      run_graph fuel "review_agents" st2 rest
  | fuel + 1, "review_agents", st, script =>
    let st2 := review_agents_apply st ["REVIEW1", "REVIEW2", "REVIEW3"]
    run_graph fuel (route_review_agents st2) st2 script
  | fuel + 1, "review_checkpoint", st, script =>
    match script with
    | [] => .suspendedAt "review_checkpoint" st
    | r :: rest =>
      let st2 := review_consolidation_checkpoint_apply st r
      run_graph fuel (review_checkpoint_edge_target (route_review_checkpoint st2)) st2 rest
  | fuel + 1, "edit_planner_prompt_checkpoint", st, script =>
    match script with
    | [] => .suspendedAt "edit_planner_prompt_checkpoint" st
    | r :: rest =>
      let st2 := prompt_edit_checkpoint_apply st "PLANNER_PROMPT"
        "edit_planner_prompt" "send_to_planner_for_revision" r
      run_graph fuel "planning_agent" st2 rest
  | _ + 1, _, st, _ => .finished st

/-- Persisted `workflows.status` written by `resume_workflow_execution`
(api/workflows.py lines 407-428) after the graph run settles: when the state
still has pending interrupts the workflow is marked `awaiting_checkpoint`,
otherwise `mark_completed` writes `completed` (all with `validate=False`). -/
def resume_final_db_status : RunOutcome → Option String
  | .finished _ => some "completed"
  | .suspendedAt _ _ => some "awaiting_checkpoint"
  | .outOfFuel => none

/-- Full scenario: start the workflow with an initial prompt and feed the
scripted resolutions at the successive checkpoints. -/
def run_scenario (script : List Resolution) : RunOutcome :=
  run_graph 32 "planning_agent" (initial_wstate "Plan a todo list app.") script

/-! ## Agent registry and adapter construction

From `backend/agents/factory.py` (`AgentFactory._create_cli_agent`) and the
`__init__` signatures of the adapters in `claude_agent.py`, `codex_agent.py`,
`gemini_agent.py` and `mock_agent.py`.  A Python call with keyword arguments
raises `TypeError` when a keyword is not a parameter of the callee, so each
constructor is modelled as a checked call: the keyword list actually passed at
the call site against the keyword parameters the `__init__` accepts. -/

structure Agent where
  agentType : String
  name : String
deriving DecidableEq, Repr

/-- Keyword parameters of `ClaudeAgent.__init__` (claude_agent.py lines
22-28): name, role, workspace_path, timeout, and nothing else. -/
def claude_init_params : List String :=
  ["name", "role", "workspace_path", "timeout"]

/-- Keyword parameters of `CodexAgent.__init__` (codex_agent.py lines 27-36). -/
def codex_init_params : List String :=
  ["name", "role", "workspace_path", "timeout", "use_review_schema",
   "suggest_mode", "display_name"]

/-- Keyword parameters of `GeminiAgent.__init__` (gemini_agent.py lines
23-31). -/
def gemini_init_params : List String :=
  ["name", "role", "workspace_path", "timeout", "yolo_mode", "display_name"]

/-- Keyword parameters of `MockAgent.__init__` (mock_agent.py line 7). -/
def mock_init_params : List String :=
  ["name", "agent_type", "role", "workspace_path"]

/-- Python keyword-argument call: returns the constructed agent when every
keyword passed is a parameter of the callee, `TypeError` otherwise. -/
def kwarg_call (params passed : List String) (made : Agent) : Except String Agent :=
  if passed.all (fun k => params.contains k) then .ok made
  else .error "TypeError: unexpected keyword argument"

/-- Model of `AgentFactory._create_cli_agent` (factory.py lines 64-135): the
name prefix selects the adapter, and each branch passes exactly the keywords
written at its call site. -/
def create_cli_agent (name : String) : Except String Agent :=
  if lstarts "claude".data name.data then
    kwarg_call claude_init_params
      ["name", "role", "workspace_path", "timeout", "plan_mode", "display_name"]
      ⟨"claude", name⟩
  else if lstarts "codex".data name.data then
    kwarg_call codex_init_params
      ["name", "role", "workspace_path", "timeout", "suggest_mode", "display_name"]
      ⟨"codex", name⟩
  else if lstarts "gemini".data name.data then
    kwarg_call gemini_init_params
      ["name", "role", "workspace_path", "timeout", "yolo_mode", "display_name"]
      ⟨"gemini", name⟩
  else
    kwarg_call mock_init_params
      ["name", "agent_type", "role", "workspace_path"]
      ⟨"mock", name⟩

/-- Model of `AgentFactory.get_agent` on a cache miss with
`use_mock_agents = False`: it delegates to `_create_cli_agent`. -/
def get_agent_no_mocks (name : String) : Except String Agent :=
  create_cli_agent name

/-! ## Timeout handling in the agent nodes

From `backend/agents/cli_agent.py` (`CLIAgent.send_message`, timeout branch)
and `backend/workflows/plan_review.py` (`_planning_agent_node`,
`_execute_review_agent_tracked`, `_review_agents_node`). -/

/-- The `CLIAgentError` message raised by `send_message` when
`asyncio.wait_for` times out (cli_agent.py lines 147-153). -/
def timeout_error_message (name : String) (timeout : Nat) : String :=
  "Agent " ++ name ++ " timed out after " ++ toString timeout ++ " seconds"

/-- The nodes' timeout test: `"timed out" in str(e).lower()`. -/
def is_timeout_error (e : String) : Bool :=
  lcontains "timed out".data (py_lower_list e.data)

/-- Actions block of a checkpoint payload. -/
structure CpActions where
  primary : String
  secondary : List String
deriving DecidableEq, Repr

/-- Payload of a timeout checkpoint. -/
structure TimeoutPayload where
  kind : String
  agentName : String
  agentType : String
  timeoutSeconds : Nat
  error : String
  prompt : String
  actions : CpActions
deriving DecidableEq, Repr

/-- Modelled from the spec: `CheckpointManager.create_timeout_checkpoint` is
called from plan_review.py lines 279 and 405 but its definition is absent from
the sources; spec section 4.7.1 gives its suspension payload, with actions
primary `retry_with_extension` and secondary `skip`, `cancel`. -/
def create_timeout_checkpoint_payload (agentName agentType : String)
    (timeoutSeconds : Nat) (errorMessage prompt : String) : TimeoutPayload :=
  { kind := "timeout"
    agentName := agentName
    agentType := agentType
    timeoutSeconds := timeoutSeconds
    error := errorMessage
    prompt := prompt
    actions := { primary := "retry_with_extension", secondary := ["skip", "cancel"] } }

/-- Outcome of one agent invocation inside a node, as seen by the node's
exception handlers. -/
inductive AgentOutcome where
  | success (text : String)
  | cliError (msg : String)
  | otherError (msg : String)
deriving DecidableEq, Repr

/-- Result of executing a node once: a normal state update, a suspension on a
timeout checkpoint, or an uncaught exception (which `execute_workflow` /
`resume_workflow_execution` turn into the `failed` status). -/
inductive NodeResult where
  | updates (st : WState)
  | suspended (payload : TimeoutPayload)
  | raised (msg : String)
deriving DecidableEq, Repr

/-- Model of `_planning_agent_node` (plan_review.py lines 196-298) as a
function of the agent invocation's outcome: success updates the state; a
`CLIAgentError` whose message contains "timed out" becomes a timeout
checkpoint suspension; any other error is re-raised. -/
def planning_agent_node (st : WState) (agentName : String) (agentTimeout : Nat)
    (prompt : String) (outcome : AgentOutcome) : NodeResult :=
  match outcome with
  | .success plan => .updates (planning_agent_apply st plan)
  | .cliError e =>
    if is_timeout_error e then
      .suspended (create_timeout_checkpoint_payload agentName "planning"
        agentTimeout e prompt)
    else .raised e
  | .otherError e => .raised e

/-- Per-reviewer result dict built by `_execute_review_agent_tracked`
(plan_review.py lines 466-542). -/
structure ReviewResult where
  success : Bool
  result : Option String
  agentName : String
  agentIndex : Nat
  timeout : Bool
  error : String
  timeoutSeconds : Nat
  prompt : String
deriving DecidableEq, Repr

/-- Model of `_execute_review_agent_tracked`: success and timeout produce a
result dict; other errors are re-raised. -/
def execute_review_agent_tracked (agentName : String) (agentTimeout : Nat)
    (agentIndex : Nat) (prompt : String) (outcome : AgentOutcome) :
    Except String ReviewResult :=
  match outcome with
  | .success text =>
    .ok { success := true, result := some text, agentName := agentName,
          agentIndex := agentIndex, timeout := false, error := "",
          timeoutSeconds := agentTimeout, prompt := prompt }
  | .cliError e =>
    if is_timeout_error e then
      .ok { success := false, result := none, agentName := agentName,
            agentIndex := agentIndex, timeout := true, error := e,
            timeoutSeconds := agentTimeout, prompt := prompt }
    else .error e
  | .otherError e => .error e

/-- Aggregation step of `_review_agents_node` (plan_review.py lines 377-447)
over the settled per-reviewer results: if any reviewer timed out, suspend on
the first timed-out agent with a timeout checkpoint; otherwise fold the
feedback into the state. -/
def review_agents_node_aggregate (st : WState) (results : List ReviewResult) :
    NodeResult :=
  let timedOut := results.filter (fun r => r.timeout)
  match timedOut with
  | first :: _ =>
    .suspended (create_timeout_checkpoint_payload first.agentName "review"
      first.timeoutSeconds first.error first.prompt)
  | [] =>
    .updates (review_agents_apply st
      ((results.filter (fun r => r.success)).map (fun r => r.result.getD "")))

/-! ## JSON values and a model of Python `json.loads`

Used by the output parser (cli_agent.py, claude_agent.py).  Strings are
parsed with the standard escapes; `\uXXXX` maps to the corresponding code
point; unescaped control characters are rejected as `json.loads` does in
strict mode.  Float literals are not modelled (no input in scope contains a
number at all), so a fraction or exponent makes the parse fail. -/

inductive JVal where
  | jnull
  | jbool (b : Bool)
  | jnum (n : Int)
  | jstr (s : String)
  | jarr (xs : List JVal)
  | jobj (fields : List (String × JVal))

/-- JSON inter-token whitespace accepted by `json.loads`. -/
def json_ws (c : Char) : Bool :=
  c = ' ' || c = '\t' || c = '\n' || c = '\r'

def skip_ws (cs : List Char) : List Char :=
  cs.dropWhile json_ws

def hex_digit_val (c : Char) : Option Nat :=
  if '0' ≤ c ∧ c ≤ '9' then some (c.toNat - 48)
  else if 'a' ≤ c ∧ c ≤ 'f' then some (c.toNat - 87)
  else if 'A' ≤ c ∧ c ≤ 'F' then some (c.toNat - 55)
  else none

def json_escape_char (c : Char) : Option Char :=
  if c = '"' then some '"'
  else if c = '\\' then some '\\'
  else if c = '/' then some '/'
  else if c = 'b' then some '\x08'
  else if c = 'f' then some '\x0c'
  else if c = 'n' then some '\n'
  else if c = 'r' then some '\r'
  else if c = 't' then some '\t'
  else none

/-- Parse the body of a JSON string literal (the opening quote already
consumed); returns the decoded characters and the input after the closing
quote. -/
def parse_string_chars : List Char → Option (List Char × List Char)
  | [] => none
  | '"' :: rest => some ([], rest)
  | '\\' :: 'u' :: h1 :: h2 :: h3 :: h4 :: rest =>
    match hex_digit_val h1, hex_digit_val h2, hex_digit_val h3, hex_digit_val h4 with
    | some a, some b, some c, some d =>
      (parse_string_chars rest).map
        (fun p => (Char.ofNat (((a * 16 + b) * 16 + c) * 16 + d) :: p.1, p.2))
    | _, _, _, _ => none
  | ['\\'] => none
  | '\\' :: e :: rest =>
    match json_escape_char e with
    | some c => (parse_string_chars rest).map (fun p => (c :: p.1, p.2))
    | none => none
  | c :: rest =>
    if c.toNat < 32 then none
    else (parse_string_chars rest).map (fun p => (c :: p.1, p.2))

def digits_to_nat (ds : List Char) : Nat :=
  ds.foldl (fun a c => a * 10 + (c.toNat - 48)) 0

/-- Parser mode: a plain value, the fields of an object after its opening
brace, or the items of an array after its opening bracket. -/
inductive ParseMode where
  | value
  | objBody (acc : List (String × JVal))
  | arrBody (acc : List JVal)

/-- Recursive-descent JSON parser (single fuel-based function so that its
applications reduce definitionally). -/
def parse_step : Nat → ParseMode → List Char → Option (JVal × List Char)
  | 0, _, _ => none
  | fuel + 1, .value, cs =>
    match skip_ws cs with
    | '\x7b' :: rest =>
      match skip_ws rest with
      | '\x7d' :: rest2 => some (.jobj [], rest2)
      | _ => parse_step fuel (.objBody []) rest
    | '[' :: rest =>
      match skip_ws rest with
      | ']' :: rest2 => some (.jarr [], rest2)
      | _ => parse_step fuel (.arrBody []) rest
    | '"' :: rest => (parse_string_chars rest).map (fun p => (JVal.jstr ⟨p.1⟩, p.2))
    | 't' :: 'r' :: 'u' :: 'e' :: rest => some (.jbool true, rest)
    | 'f' :: 'a' :: 'l' :: 's' :: 'e' :: rest => some (.jbool false, rest)
    | 'n' :: 'u' :: 'l' :: 'l' :: rest => some (.jnull, rest)
    | '-' :: rest =>
      let ds := rest.takeWhile Char.isDigit
      let rest2 := rest.dropWhile Char.isDigit
      if ds.isEmpty then none
      else if rest2.head? = some '.' ∨ rest2.head? = some 'e' ∨ rest2.head? = some 'E' then none
      else some (.jnum (-(digits_to_nat ds : Int)), rest2)
    | c :: rest =>
      if c.isDigit then
        let ds := (c :: rest).takeWhile Char.isDigit
        let rest2 := (c :: rest).dropWhile Char.isDigit
        if rest2.head? = some '.' ∨ rest2.head? = some 'e' ∨ rest2.head? = some 'E' then none
        else some (.jnum (digits_to_nat ds : Int), rest2)
      else none
    | [] => none
  | fuel + 1, .objBody acc, cs =>
    match skip_ws cs with
    | '"' :: rest =>
      match parse_string_chars rest with
      | none => none
      | some (key, rest2) =>
        match skip_ws rest2 with
        | ':' :: rest3 =>
          match parse_step fuel .value rest3 with
          | none => none
          | some (v, rest4) =>
            match skip_ws rest4 with
            | ',' :: rest5 => parse_step fuel (.objBody (acc ++ [(⟨key⟩, v)])) rest5
            | '\x7d' :: rest5 => some (.jobj (acc ++ [(⟨key⟩, v)]), rest5)
            | _ => none
        | _ => none
    | _ => none
  | fuel + 1, .arrBody acc, cs =>
    match parse_step fuel .value cs with
    | none => none
    | some (v, rest) =>
      match skip_ws rest with
      | ',' :: rest2 => parse_step fuel (.arrBody (acc ++ [v])) rest2
      | ']' :: rest2 => some (.jarr (acc ++ [v]), rest2)
      | _ => none

/-- Model of Python `json.loads`: parse one JSON value and require only
whitespace afterwards. -/
def json_loads (s : String) : Option JVal :=
  match parse_step (s.data.length + 1) .value s.data with
  | some (v, rest) => if (skip_ws rest).isEmpty then some v else none
  | none => none

/-- Model of `dict.get(key)` on a parsed object (last duplicate key wins, as
in Python's dict construction); `none` on non-objects, which also covers the
`isinstance(obj, dict)` guards in the sources. -/
def jget (v : JVal) (key : String) : Option JVal :=
  match v with
  | .jobj fields => (fields.reverse.find? (fun p => p.1 = key)).map (fun p => p.2)
  | _ => none

/-- Whether `v` is an object whose `type` field is the given string. -/
def jtype_is (v : JVal) (t : String) : Bool :=
  match jget v "type" with
  | some (.jstr s) => s = t
  | _ => false

/-! ## Serialization fallback

Models `json.dumps` well enough for the unreachable fallback branches of the
content extractors (no claim in scope observes this branch; the `indent=2`
pretty-printing of the source is not reproduced). -/

def json_escape_string (s : String) : String :=
  ⟨s.data.foldr (fun c acc =>
    if c = '"' then '\\' :: '"' :: acc
    else if c = '\\' then '\\' :: '\\' :: acc
    else if c = '\n' then '\\' :: 'n' :: acc
    else if c = '\t' then '\\' :: 't' :: acc
    else if c = '\r' then '\\' :: 'r' :: acc
    else c :: acc) []⟩

mutual

def json_dumps : JVal → String
  | .jnull => "null"
  | .jbool true => "true"
  | .jbool false => "false"
  | .jnum n => toString n
  | .jstr s => "\"" ++ json_escape_string s ++ "\""
  | .jarr xs => "[" ++ json_dumps_list xs ++ "]"
  | .jobj fs => "\x7b" ++ json_dumps_fields fs ++ "\x7d"

def json_dumps_list : List JVal → String
  | [] => ""
  | [x] => json_dumps x
  | x :: y :: rest => json_dumps x ++ ", " ++ json_dumps_list (y :: rest)

def json_dumps_fields : List (String × JVal) → String
  | [] => ""
  | [(k, v)] => "\"" ++ json_escape_string k ++ "\": " ++ json_dumps v
  | (k, v) :: f :: rest =>
    "\"" ++ json_escape_string k ++ "\": " ++ json_dumps v ++ ", "
      ++ json_dumps_fields (f :: rest)

end

/-! ## ANSI stripping

Models the `ansi_escape.sub('', output)` call in
`JSONCLIAgent._extract_json_from_output`: the compiled pattern is ESC
followed by either one byte in the class at-sign to Z or backslash to
underscore, or by a CSI sequence (an opening bracket, then parameter bytes
0x30 to 0x3F, then intermediate bytes 0x20 to 0x2F, then one final byte
0x40 to 0x7E). -/

/-- Character class `[@-Z\\-_]` of the two-byte escape branch. -/
def ansi_two_byte (c : Char) : Bool :=
  (decide (64 ≤ c.toNat) && decide (c.toNat ≤ 90)) ||
  (decide (92 ≤ c.toNat) && decide (c.toNat ≤ 95))

/-- Attempt to match the regex alternatives right after an ESC character;
returns the remaining input on a match. -/
def try_ansi_match : List Char → Option (List Char)
  | [] => none
  | c :: rest =>
    if ansi_two_byte c then some rest
    else if c = '[' then
      let afterParams := rest.dropWhile
        (fun d => decide (48 ≤ d.toNat) && decide (d.toNat ≤ 63))
      let afterInter := afterParams.dropWhile
        (fun d => decide (32 ≤ d.toNat) && decide (d.toNat ≤ 47))
      match afterInter with
      | f :: rest2 =>
        if decide (64 ≤ f.toNat) && decide (f.toNat ≤ 126) then some rest2 else none
      | [] => none
    else none

def ansi_strip_aux : Nat → List Char → List Char
  | 0, cs => cs
  | _ + 1, [] => []
  | fuel + 1, c :: rest =>
    if c = '\x1b' then
      match try_ansi_match rest with
      | some rest2 => ansi_strip_aux fuel rest2
      | none => c :: ansi_strip_aux fuel rest
    else c :: ansi_strip_aux fuel rest

def ansi_strip (cs : List Char) : List Char :=
  ansi_strip_aux cs.length cs

/-! ## Structural brace scan

Models the character-by-character state machine of
`JSONCLIAgent._extract_json_from_output` (cli_agent.py lines 365-404): count
only structural braces, honour string literals and backslash escapes, collect
each balanced top-level `...` slice. -/

def brace_scan_aux : List Char → Int → Bool → Bool → Bool → List Char →
    List (List Char) → List (List Char)
  | [], _, _, _, active, cur, cands =>
    -- end of input: an unfinished slice (unbalanced braces) is discarded
    let _ := active
    let _ := cur
    cands
  | c :: rest, braceCount, inString, escapeNext, active, cur, cands =>
    if escapeNext then
      brace_scan_aux rest braceCount inString false active
        (if active then cur ++ [c] else cur) cands
    else if c = '\\' && inString then
      brace_scan_aux rest braceCount inString true active
        (if active then cur ++ [c] else cur) cands
    else if c = '"' then
      brace_scan_aux rest braceCount (!inString) false active
        (if active then cur ++ [c] else cur) cands
    else if !inString && c = '\x7b' then
      if braceCount = 0 then
        brace_scan_aux rest (braceCount + 1) inString false true [c] cands
      else
        brace_scan_aux rest (braceCount + 1) inString false active
          (if active then cur ++ [c] else cur) cands
    else if !inString && c = '\x7d' then
      let newCount := braceCount - 1
      let cur2 := if active then cur ++ [c] else cur
      if newCount = 0 && active then
        brace_scan_aux rest newCount inString false false [] (cands ++ [cur2])
      else
        brace_scan_aux rest newCount inString false active cur2 cands
    else
      brace_scan_aux rest braceCount inString false active
        (if active then cur ++ [c] else cur) cands

def brace_scan (cs : List Char) : List (List Char) :=
  brace_scan_aux cs 0 false false false [] []

/-! ## Output extraction pipeline

Models `JSONCLIAgent._extract_json_from_output` (cli_agent.py lines 277-407). -/

/-- Whether a stripped line enters `valid_json_lines`: starts with a brace,
ends with a brace, and parses as JSON.  Non-dict JSON lines are included, as
in the source the line is appended before `obj.get` can raise. -/
def line_is_json (l : List Char) : Bool :=
  (match l with
   | '\x7b' :: _ => true
   | _ => false) &&
  (match l.getLast? with
   | some '\x7d' => true
   | _ => false) &&
  (json_loads ⟨l⟩).isSome

/-- Whether a valid line enters `result_candidates`: it parses to a dict
whose `type` is `result` or `assistant`. -/
def line_is_result_or_assistant (l : List Char) : Bool :=
  match json_loads ⟨l⟩ with
  | some v => jtype_is v "result" || jtype_is v "assistant"
  | none => false

def extract_json_from_output (output : String) : String :=
  let cleaned : List Char := ansi_strip output.data
  let lines := lsplit '\n' (py_strip_list cleaned)
  let cleaned :=
    if lines.length > 1 then
      let validLines := (lines.map py_strip_list).filter line_is_json
      let candidates := validLines.filter line_is_result_or_assistant
      match candidates.getLast? with
      | some l => l
      | none =>
        match validLines.getLast? with
        | some l => l
        | none => cleaned
    else cleaned
  match (brace_scan cleaned).getLast? with
  | some cand => ⟨cand⟩
  | none => ⟨py_strip_list cleaned⟩

/-! ## Content extraction

Models `ClaudeAgent.extract_content_from_json` and
`ClaudeAgent._extract_string_content` (claude_agent.py lines 58-192) and the
base `JSONCLIAgent.extract_content_from_json` (cli_agent.py lines 500-520). -/

/-- Python `str(x)` on a parsed JSON value, used by the fallback branches of
`_extract_string_content`; rendered via the JSON serializer (no claim in
scope observes these branches). -/
def py_str_of_jval : JVal → String
  | .jstr s => s
  | v => json_dumps v

/-- One block of a content list, as handled by the loop in
`_extract_string_content`: returns the text part contributed by the block, if
any. -/
def content_block_part (block : JVal) : Option String :=
  match block with
  | .jobj _ =>
    let blockType :=
      match jget block "type" with
      | some (.jstr t) => some t
      | some _ => none
      | none => some ""
    match blockType, jget block "text", jget block "content" with
    | some "text", some txt, _ => some (py_str_of_jval txt)
    | some "tool_use", _, _ => none
    | some "tool_result", _, _ => none
    | _, some txt, _ => some (py_str_of_jval txt)
    | _, none, some inner => some (py_str_of_jval inner)
    | _, none, none => none
  | .jstr s => some s
  | _ => none

/-- Model of `ClaudeAgent._extract_string_content`. -/
def extract_string_content (content : JVal) : String :=
  match content with
  | .jstr s => s
  | .jarr blocks =>
    let parts := blocks.filterMap content_block_part
    if parts.isEmpty then "" else String.intercalate "\n" parts
  | .jobj _ =>
    match jget content "text" with
    | some t => py_str_of_jval t
    | none =>
      match jget content "value" with
      | some v => py_str_of_jval v
      | none => py_str_of_jval content
  | v => py_str_of_jval v

/-- Model of the base `JSONCLIAgent.extract_content_from_json`. -/
def json_cli_extract_content (data : JVal) : String :=
  match data with
  | .jobj _ =>
    match jget data "content" with
    | some c => py_str_of_jval c
    | none => json_dumps data
  | .jstr s => s
  | _ => json_dumps data

/-- Pattern 5b (`messages` list) and the base-class fallback. -/
def claude_extract_tail2 (data : JVal) : String :=
  match jget data "messages" with
  | some (.jarr ms) =>
    match ms.getLast? with
    | some lastMsg =>
      match jget lastMsg "content" with
      | some c => extract_string_content c
      | none => json_cli_extract_content data
    | none => json_cli_extract_content data
  | _ => json_cli_extract_content data

/-- Patterns 3 to 5 of `ClaudeAgent.extract_content_from_json` plus the
fallback to the base class. -/
def claude_extract_tail (data : JVal) : String :=
  match jget data "content" with
  | some c => extract_string_content c
  | none =>
    match jget data "message" with
    | some (.jstr s) => s
    | _ =>
      match jget data "response" with
      | some (.jobj rf) =>
        match jget (.jobj rf) "content" with
        | some c => extract_string_content c
        | none => claude_extract_tail2 data
      | _ => claude_extract_tail2 data

/-- Pattern 2 (`type=assistant` with nested `message`) and the later
patterns. -/
def claude_extract_p2 (data : JVal) : String :=
  if jtype_is data "assistant" then
    match jget data "message" with
    | some m =>
      match jget m "content" with
      | some c => extract_string_content c
      | none => claude_extract_tail data
    | none => claude_extract_tail data
  else claude_extract_tail data

/-- Model of `ClaudeAgent.extract_content_from_json`: the system-message
safety check raises `ValueError` (modelled as `Except.error`), then the
patterns are tried in source order. -/
def claude_extract_content (data : JVal) : Except String String :=
  match data with
  | .jobj _ =>
    if jtype_is data "system" then
      .error "ERROR: Received system message instead of result message!"
    else
      match jget data "result" with
      | some (.jstr s) => .ok s
      | some r =>
        match jget r "content" with
        | some c => .ok (extract_string_content c)
        | none => .ok (claude_extract_p2 data)
      | none => .ok (claude_extract_p2 data)
  | _ => .ok (json_cli_extract_content data)

/-! ## Regex salvage of truncated JSON

Models `JSONCLIAgent._fallback_extract_content` (cli_agent.py lines
464-498): for each field name in order, search for the quoted field name,
optional whitespace around the colon, an opening quote, then a lazily
matched body terminated by an unescaped quote followed by whitespace, comma
or closing brace, or by the end of the input. -/

/-- Python regex `\s` on ASCII input. -/
def py_regex_ws (c : Char) : Bool :=
  c = ' ' || c = '\t' || c = '\n' || c = '\r' || c = '\x0b' || c = '\x0c'

/-- Lazy capture of the regex body `((?:[^"\\]|\\.)*?)` up to the terminator
`(?<!\\)"[\s,}]` or end of input.  `prev` is the character preceding the
current position (for the lookbehind). -/
def fallback_capture (prev : Char) : List Char → Option (List Char)
  | [] => some []
  | ['"'] => none
  | '"' :: d :: rest =>
    if prev ≠ '\\' ∧ (py_regex_ws d || d = ',' || d = '\x7d') then some []
    else
      let _ := rest
      none
  | ['\\'] => none
  | '\\' :: d :: rest =>
    (fallback_capture d rest).map (fun r => '\\' :: d :: r)
  | c :: rest =>
    (fallback_capture c rest).map (fun r => c :: r)

/-- Attempt the whole salvage pattern for `fieldName` at the start of `cs`. -/
def fallback_try_at (fieldName : List Char) (cs : List Char) : Option (List Char) :=
  if lstarts ('"' :: (fieldName ++ ['"'])) cs then
    let rest := (cs.drop (fieldName.length + 2)).dropWhile py_regex_ws
    match rest with
    | ':' :: rest2 =>
      match rest2.dropWhile py_regex_ws with
      | '"' :: rest4 => fallback_capture '"' rest4
      | _ => none
    | _ => none
  else none

/-- Leftmost match: try the pattern at every start position. -/
def fallback_search (fieldName : List Char) : List Char → Option (List Char)
  | [] => fallback_try_at fieldName []
  | c :: rest =>
    match fallback_try_at fieldName (c :: rest) with
    | some cap => some cap
    | none => fallback_search fieldName rest

/-- Model of Python `str.replace(pat, rep)` (left-to-right, non-overlapping);
`pat` is assumed nonempty, as in all call sites. -/
def py_replace_aux : Nat → List Char → List Char → List Char → List Char
  | 0, _, _, cs => cs
  | _ + 1, _, _, [] => []
  | fuel + 1, pat, rep, c :: rest =>
    if lstarts pat (c :: rest) then
      rep ++ py_replace_aux fuel pat rep ((c :: rest).drop pat.length)
    else
      c :: py_replace_aux fuel pat rep rest

def py_replace (cs pat rep : List Char) : List Char :=
  py_replace_aux cs.length pat rep cs

/-- The escape decoding applied to a successful capture, in source order. -/
def fallback_unescape (cs : List Char) : List Char :=
  let s1 := py_replace cs ['\\', 'n'] ['\n']
  let s2 := py_replace s1 ['\\', 't'] ['\t']
  let s3 := py_replace s2 ['\\', 'r'] ['\r']
  let s4 := py_replace s3 ['\\', '"'] ['"']
  py_replace s4 ['\\', '\\'] ['\\']

/-- Model of `_fallback_extract_content`. -/
def fallback_extract_content (malformedJson : String) : Option String :=
  match fallback_search "result".data malformedJson.data with
  | some cap => some ⟨fallback_unescape cap⟩
  | none =>
    match fallback_search "content".data malformedJson.data with
    | some cap => some ⟨fallback_unescape cap⟩
    | none =>
      match fallback_search "message".data malformedJson.data with
      | some cap => some ⟨fallback_unescape cap⟩
      | none => none

/-! ## `parse_response` for the Claude adapter

Models `JSONCLIAgent.parse_response` (cli_agent.py lines 409-462) with
`ClaudeAgent.extract_content_from_json` as the content extractor: empty
stripped stdout raises; otherwise the extracted JSON is parsed strictly and
on `json.JSONDecodeError` only, the regex salvage runs. -/

def claude_parse_response (stdout : String) : Except String String :=
  if (py_strip_list stdout.data).isEmpty then
    .error "returned empty output"
  else
    let jsonStr := extract_json_from_output stdout
    match json_loads jsonStr with
    | some data => claude_extract_content data
    | none =>
      match fallback_extract_content jsonStr with
      | some result => .ok result
      | none => .error "returned invalid JSON"

/-! ## Literal inputs of the parsing scenarios -/

/-- Stdout of spec scenario 4: ANSI-wrapped NDJSON with a system record, a
tool-use assistant record and a result record. -/
def scenario4_stdout : String :=
  "\x1b[32m\x7b\"type\":\"system\",\"subtype\":\"init\"\x7d\n\x7b\"type\":\"assistant\",\"message\":\x7b\"content\":[\x7b\"type\":\"tool_use\"\x7d]\x7d\x7d\n\x7b\"type\":\"result\",\"result\":\"hello\"\x7d\x1b[0m"

/-- Stdout of spec scenario 5: a truncated, unterminated JSON object whose
result field contains a backslash-n escape. -/
def scenario5_stdout : String :=
  "\x7b\"type\":\"result\",\"result\":\"Line1\\nLine2"

/-! ## Remaining scenario definitions -/

/-- Internal `status` field of the final workflow state of a run. -/
def outcome_status : RunOutcome → Option String
  | .finished st => some st.status
  | .suspendedAt _ st => some st.status
  | .outOfFuel => none

/-- Final `iteration_count` of a run. -/
def outcome_iteration : RunOutcome → Option Nat
  | .finished st => some st.iterationCount
  | .suspendedAt _ st => some st.iterationCount
  | .outOfFuel => none

/-- Resolutions of the cancellation scenario: approve the plan for review,
then cancel at the review checkpoint. -/
def cancel_script : List Resolution :=
  [⟨some "send_to_reviewers", none⟩, ⟨some "cancel", none⟩]

/-- Resolutions of spec scenario 2 (one revision round): send to reviewers,
request a revision with edited feedback, send to reviewers again, approve. -/
def one_revision_script : List Resolution :=
  [⟨some "send_to_reviewers", none⟩,
   ⟨some "request_revision", some "Please add security section."⟩,
   ⟨some "send_to_reviewers", none⟩,
   ⟨some "approve_plan", none⟩]

/-- The JSON value that strict parsing yields on scenario 4's stdout. -/
def scenario4_parsed : JVal :=
  .jobj [("type", .jstr "result"), ("result", .jstr "hello")]

/-! # Theorems -/

set_option maxRecDepth 1000000

/-! ## Helper lemmas -/

theorem lstarts_append (n h b : List Char) (hn : lstarts n h = true) :
    lstarts n (h ++ b) = true := by
  induction n generalizing h with
  | nil => simp [lstarts]
  | cons p ps ih =>
    cases h with
    | nil => simp [lstarts] at hn
    | cons c cs =>
      simp only [lstarts, Bool.and_eq_true] at hn ⊢
      exact ⟨hn.1, ih cs hn.2⟩

theorem lcontains_append_right (n h b : List Char) (hn : lcontains n h = true) :
    lcontains n (h ++ b) = true := by
  induction h with
  | nil =>
    simp only [lcontains, List.isEmpty_iff] at hn
    subst hn
    cases b with
    | nil => simp [lcontains]
    | cons c cs => simp [lcontains, lstarts]
  | cons c cs ih =>
    simp only [lcontains, Bool.or_eq_true] at hn ⊢
    cases hn with
    | inl hs => exact Or.inl (lstarts_append n (c :: cs) b hs)
    | inr hc => exact Or.inr (ih hc)

theorem lcontains_append_left (n a h : List Char) (hn : lcontains n h = true) :
    lcontains n (a ++ h) = true := by
  induction a with
  | nil => simpa using hn
  | cons c cs ih =>
    simp only [List.cons_append, lcontains, Bool.or_eq_true]
    exact Or.inr ih

/-- Every timeout error message raised by `CLIAgent.send_message` passes the
nodes' `"timed out" in str(e).lower()` test, whatever the agent name and
timeout value. -/
theorem timeout_message_is_timeout (name : String) (t : Nat) :
    is_timeout_error (timeout_error_message name t) = true := by
  unfold is_timeout_error timeout_error_message py_lower_list
  rw [String.data_append, String.data_append, String.data_append, String.data_append]
  rw [List.map_append, List.map_append, List.map_append, List.map_append]
  have hC : lcontains "timed out".data
      (List.map Char.toLower " timed out after ".data) = true := by decide
  have h1 := lcontains_append_left "timed out".data
    (List.map Char.toLower "Agent ".data ++ List.map Char.toLower name.data)
    (List.map Char.toLower " timed out after ".data) hC
  have h2 := lcontains_append_right "timed out".data _
    (List.map Char.toLower (toString t).data) h1
  have h3 := lcontains_append_right "timed out".data _
    (List.map Char.toLower " seconds".data) h2
  simpa [List.append_assoc] using h3

/-! ## Claim theorems -/

/-- C6: on the ANSI-wrapped NDJSON stdout of scenario 4, the extraction
pipeline selects the last record whose type is result or assistant and the
parser returns exactly the string "hello". -/
theorem c6_ansi_ndjson_parse :
    extract_json_from_output scenario4_stdout
        = "\x7b\"type\":\"result\",\"result\":\"hello\"\x7d" ∧
    claude_parse_response scenario4_stdout = .ok "hello" :=
  ⟨rfl, rfl⟩

/-- C2: resuming a workflow with the cancel action ends the graph run with the
internal state status `cancelled`, but `resume_workflow_execution` then finds
no pending interrupt and calls `mark_completed`, so the persisted workflow
status is `completed`, not `cancelled`. -/
theorem c2_cancel_resume_persists_completed :
    outcome_status (run_scenario cancel_script) = some "cancelled" ∧
    resume_final_db_status (run_scenario cancel_script) = some "completed" ∧
    (some "completed" : Option String) ≠ some "cancelled" :=
  ⟨rfl, rfl, by decide⟩

/-- C3: with mock agents disabled, a codex- or gemini-prefixed name yields the
corresponding adapter and an unknown prefix yields a mock agent, but a
claude-prefixed name raises `TypeError` because `_create_cli_agent` passes the
keywords `plan_mode` and `display_name` that `ClaudeAgent.__init__` does not
accept. -/
theorem c3_claude_prefix_construction_raises :
    get_agent_no_mocks "claude_planner"
        = .error "TypeError: unexpected keyword argument" ∧
    get_agent_no_mocks "codex_reviewer" = .ok ⟨"codex", "codex_reviewer"⟩ ∧
    get_agent_no_mocks "gemini_reviewer" = .ok ⟨"gemini", "gemini_reviewer"⟩ ∧
    get_agent_no_mocks "unknown_agent" = .ok ⟨"mock", "unknown_agent"⟩ :=
  ⟨rfl, rfl, rfl, rfl⟩

/-- C8 counterexample: in the one-revision-round scenario the user's
`request_revision` path does not increment `iteration_count` (only the
`edit_planner_prompt` path does), so the final iteration count is 0, not 1 as
the claim states. -/
theorem c8_one_revision_counterexample :
    outcome_iteration (run_scenario one_revision_script) = some 0 ∧
    outcome_iteration (run_scenario one_revision_script) ≠ some 1 :=
  ⟨rfl, by decide⟩

/-- C8 amended: the one-revision-round scenario ends with the workflow
completed (both the internal state status and the persisted status) and
`iteration_count` equal to 0. -/
theorem c8_one_revision_amended :
    outcome_status (run_scenario one_revision_script) = some "completed" ∧
    resume_final_db_status (run_scenario one_revision_script) = some "completed" ∧
    outcome_iteration (run_scenario one_revision_script) = some 0 :=
  ⟨rfl, rfl, rfl⟩

/-- C9: the API-level resolution writer maps actions exactly by the claimed
table, but `CheckpointManager._save_checkpoint_resolution` (which the sources
say must be kept in sync with it) lacks the `edit_full_prompt` entry and
therefore stores `approved` instead of `edited` for that action. -/
theorem c9_resolution_status_maps :
    cm_status_map "edit_full_prompt" = "approved" ∧
    api_status_map "edit_full_prompt" = "edited" ∧
    (∀ a : String, api_status_map a = claimed_status_table a) := by
  refine ⟨rfl, rfl, ?_⟩
  intro a
  simp only [api_status_map, claimed_status_table, List.mem_cons,
    List.not_mem_nil, or_false]
  split_ifs <;> simp_all

/-- C10 counterexample: at the plan checkpoint the unrecognized action
`edit_prompt_and_revise` does take the cancel branch (status cancelled,
next_step end, routed to END), but its recorded resolution status is
`edited`, not `approved` as the claim asserts for every unknown action. -/
theorem c10_unknown_action_counterexample :
    (plan_review_checkpoint_apply
        (planning_agent_apply (initial_wstate "Plan a todo list app.") "PLAN")
        ⟨some "edit_prompt_and_revise", none⟩).status = "cancelled" ∧
    (plan_review_checkpoint_apply
        (planning_agent_apply (initial_wstate "Plan a todo list app.") "PLAN")
        ⟨some "edit_prompt_and_revise", none⟩).nextStep = some "end" ∧
    route_plan_checkpoint (plan_review_checkpoint_apply
        (planning_agent_apply (initial_wstate "Plan a todo list app.") "PLAN")
        ⟨some "edit_prompt_and_revise", none⟩) = "end" ∧
    cm_status_map "edit_prompt_and_revise" = "edited" ∧
    "edited" ≠ "approved" :=
  ⟨rfl, rfl, rfl, rfl, by decide⟩

/-- C10 amended: at each of the two checkpoints, every action outside that
checkpoint's own recognized set takes the cancel branch (status cancelled,
next_step end, routed to the terminal node); independently, the recorded
resolution status follows the global action table, so it is `approved`
exactly for actions absent from that table (a wholly unknown action), while
an action from the table's edited family records `edited`. -/
theorem c10_unknown_action_amended (st : WState) (a : String) (e : Option String) :
    (a ∉ ["send_to_reviewers", "edit_and_continue", "cancel"] →
      (plan_review_checkpoint_apply st ⟨some a, e⟩).status = "cancelled" ∧
      (plan_review_checkpoint_apply st ⟨some a, e⟩).nextStep = some "end" ∧
      route_plan_checkpoint (plan_review_checkpoint_apply st ⟨some a, e⟩) = "end") ∧
    (a ∉ ["request_revision", "edit_prompt_and_revise", "approve_plan", "cancel"] →
      (review_consolidation_checkpoint_apply st ⟨some a, e⟩).status = "cancelled" ∧
      (review_consolidation_checkpoint_apply st ⟨some a, e⟩).nextStep = some "end" ∧
      route_review_checkpoint (review_consolidation_checkpoint_apply st ⟨some a, e⟩) = "end") ∧
    (a ∉ ["send_to_reviewers", "send_to_planner_for_revision", "request_revision",
       "approve_plan", "approve", "edit_and_continue", "edit_prompt_and_revise", "cancel"] →
      cm_status_map a = "approved") := by
  refine ⟨?_, ?_, ?_⟩
  · intro hplan
    simp only [List.mem_cons, List.not_mem_nil, or_false, not_or] at hplan
    obtain ⟨h1, h2, _⟩ := hplan
    refine ⟨?_, ?_, ?_⟩ <;>
      simp [plan_review_checkpoint_apply, route_plan_checkpoint, h1, h2]
  · intro hreview
    simp only [List.mem_cons, List.not_mem_nil, or_false, not_or] at hreview
    obtain ⟨h4, h5, h6, _⟩ := hreview
    refine ⟨?_, ?_, ?_⟩ <;>
      simp [review_consolidation_checkpoint_apply, route_review_checkpoint, h4, h5, h6]
  · intro hmap
    simp only [List.mem_cons, List.not_mem_nil, or_false, not_or] at hmap
    obtain ⟨m1, m2, m3, m4, m5, m6, m7, m8⟩ := hmap
    simp [cm_status_map, m1, m2, m3, m4, m5, m6, m7, m8]

/-- C10 amended, witnessed at the wholly unknown action `bogus_action` (all
three clauses) and at `approve_plan`, an action the plan checkpoint does not
recognize although the status table does. -/
theorem c10_unknown_action_amended_witness :
    ((plan_review_checkpoint_apply (initial_wstate "x") ⟨some "bogus_action", none⟩).status = "cancelled" ∧
     (plan_review_checkpoint_apply (initial_wstate "x") ⟨some "bogus_action", none⟩).nextStep = some "end" ∧
     route_plan_checkpoint (plan_review_checkpoint_apply (initial_wstate "x") ⟨some "bogus_action", none⟩) = "end") ∧
    ((review_consolidation_checkpoint_apply (initial_wstate "x") ⟨some "bogus_action", none⟩).status = "cancelled" ∧
     (review_consolidation_checkpoint_apply (initial_wstate "x") ⟨some "bogus_action", none⟩).nextStep = some "end" ∧
     route_review_checkpoint (review_consolidation_checkpoint_apply (initial_wstate "x") ⟨some "bogus_action", none⟩) = "end") ∧
    cm_status_map "bogus_action" = "approved" ∧
    ((plan_review_checkpoint_apply (initial_wstate "x") ⟨some "approve_plan", none⟩).status = "cancelled" ∧
     (plan_review_checkpoint_apply (initial_wstate "x") ⟨some "approve_plan", none⟩).nextStep = some "end" ∧
     route_plan_checkpoint (plan_review_checkpoint_apply (initial_wstate "x") ⟨some "approve_plan", none⟩) = "end") :=
  ⟨(c10_unknown_action_amended (initial_wstate "x") "bogus_action" none).1 (by decide),
   (c10_unknown_action_amended (initial_wstate "x") "bogus_action" none).2.1 (by decide),
   (c10_unknown_action_amended (initial_wstate "x") "bogus_action" none).2.2 (by decide),
   (c10_unknown_action_amended (initial_wstate "x") "approve_plan" none).1 (by decide)⟩

/-- C1: an agent invocation failing with the runner's timeout error makes the
planner node suspend with a timeout checkpoint offering
retry_with_extension/skip/cancel (not raise, which would fail the workflow);
a timed-out reviewer subtask settles as a timeout result, and the reviewers
node suspends the same way whenever any subtask timed out. -/
theorem c1_timeout_checkpoint (st : WState) (agentName prompt : String) (t idx : Nat)
    (results : List ReviewResult)
    (hto : results.any (fun r => r.timeout) = true) :
    planning_agent_node st agentName t prompt (.cliError (timeout_error_message agentName t))
        = .suspended (create_timeout_checkpoint_payload agentName "planning" t
            (timeout_error_message agentName t) prompt) ∧
    (create_timeout_checkpoint_payload agentName "planning" t
        (timeout_error_message agentName t) prompt).actions
        = ⟨"retry_with_extension", ["skip", "cancel"]⟩ ∧
    execute_review_agent_tracked agentName t idx prompt
        (.cliError (timeout_error_message agentName t))
        = .ok ⟨false, none, agentName, idx, true, timeout_error_message agentName t, t, prompt⟩ ∧
    (∃ p, review_agents_node_aggregate st results = .suspended p ∧
        p.actions = ⟨"retry_with_extension", ["skip", "cancel"]⟩) := by
  refine ⟨?_, rfl, ?_, ?_⟩
  · simp [planning_agent_node, timeout_message_is_timeout]
  · simp [execute_review_agent_tracked, timeout_message_is_timeout]
  · cases hfil : results.filter (fun r => r.timeout) with
    | nil =>
      exfalso
      rw [List.any_eq_true] at hto
      obtain ⟨r, hr, hrt⟩ := hto
      have hmem : r ∈ results.filter (fun r => r.timeout) :=
        List.mem_filter.mpr ⟨hr, hrt⟩
      rw [hfil] at hmem
      exact absurd hmem (List.not_mem_nil r)
    | cons first rest =>
      exact ⟨create_timeout_checkpoint_payload first.agentName "review"
          first.timeoutSeconds first.error first.prompt,
        by simp [review_agents_node_aggregate, hfil], rfl⟩

/-- C1, witnessed at a concrete planner and a reviewer triple whose second
member timed out. -/
theorem c1_timeout_checkpoint_witness :
    (([⟨true, some "ok", "claude_reviewer", 1, false, "", 600, "p1"⟩,
       ⟨false, none, "codex_reviewer", 2, true, "err", 600, "p2"⟩] : List ReviewResult).any
        (fun r => r.timeout) = true) ∧
    (planning_agent_node (initial_wstate "x") "claude_planner" 300 "prompt"
        (.cliError (timeout_error_message "claude_planner" 300))
        = .suspended (create_timeout_checkpoint_payload "claude_planner" "planning" 300
            (timeout_error_message "claude_planner" 300) "prompt") ∧
     (create_timeout_checkpoint_payload "claude_planner" "planning" 300
        (timeout_error_message "claude_planner" 300) "prompt").actions
        = ⟨"retry_with_extension", ["skip", "cancel"]⟩ ∧
     execute_review_agent_tracked "claude_planner" 300 1 "prompt"
        (.cliError (timeout_error_message "claude_planner" 300))
        = .ok ⟨false, none, "claude_planner", 1, true,
            timeout_error_message "claude_planner" 300, 300, "prompt"⟩ ∧
     (∃ p, review_agents_node_aggregate (initial_wstate "x")
          [⟨true, some "ok", "claude_reviewer", 1, false, "", 600, "p1"⟩,
           ⟨false, none, "codex_reviewer", 2, true, "err", 600, "p2"⟩] = .suspended p ∧
        p.actions = ⟨"retry_with_extension", ["skip", "cancel"]⟩)) :=
  ⟨by decide,
   c1_timeout_checkpoint (initial_wstate "x") "claude_planner" "prompt" 300 1
     [⟨true, some "ok", "claude_reviewer", 1, false, "", 600, "p1"⟩,
      ⟨false, none, "codex_reviewer", 2, true, "err", 600, "p2"⟩]
     (by decide)⟩

/-- C7: on the truncated stdout of scenario 5, strict JSON parsing fails and
the regex salvage returns exactly "Line1\nLine2" with the escape decoded to a
newline; moreover whenever strict parsing succeeds, `parse_response` returns
the strict extraction result, so the salvage runs only after strict parsing
fails. -/
theorem c7_truncated_salvage :
    json_loads (extract_json_from_output scenario5_stdout) = none ∧
    claude_parse_response scenario5_stdout = .ok "Line1\nLine2" ∧
    (∀ (s : String) (d : JVal),
      py_strip_list s.data ≠ [] →
      json_loads (extract_json_from_output s) = some d →
      claude_parse_response s = claude_extract_content d) := by
  refine ⟨rfl, rfl, ?_⟩
  intro s d hne hd
  have hne' : (py_strip_list s.data).isEmpty = false := by
    cases h : py_strip_list s.data with
    | nil => exact absurd h hne
    | cons a l => rfl
  simp only [claude_parse_response, hne', Bool.false_eq_true, if_false, hd]

/-- C7, witnessed at scenario 4's stdout, where strict parsing succeeds. -/
theorem c7_truncated_salvage_witness :
    py_strip_list scenario4_stdout.data ≠ [] ∧
    json_loads (extract_json_from_output scenario4_stdout) = some scenario4_parsed ∧
    claude_parse_response scenario4_stdout = claude_extract_content scenario4_parsed :=
  ⟨by decide, rfl,
   c7_truncated_salvage.2.2 scenario4_stdout scenario4_parsed (by decide) rfl⟩

/-- C5: for workflows with a known current status, `validate_transition`
accepts exactly the claimed transition relation (pending to running; running
and awaiting_checkpoint to their four successors; everything else rejected),
and `mark_failed` writes the `failed` status regardless of the current
status, the invalid transition only producing a warning. -/
theorem c5_status_transitions :
    (∀ c, c ∈ workflow_statuses →
      ∀ t, validate_transition (some (some c)) t = claimed_allowed c t) ∧
    (∀ active, mark_failed_written_status active = "failed") := by
  constructor
  · intro c hc t
    fin_cases hc
    · by_cases h0 : t = "running" <;>
        simp [validate_transition, valid_next_states, status_transition_enum,
          claimed_allowed, List.contains, h0]
    · by_cases h1 : t = "awaiting_checkpoint" <;> by_cases h2 : t = "completed" <;>
        by_cases h3 : t = "failed" <;> by_cases h4 : t = "cancelled" <;>
        simp [validate_transition, valid_next_states, status_transition_enum,
          claimed_allowed, List.contains, h1, h2, h3, h4]
    · by_cases h1 : t = "running" <;> by_cases h2 : t = "completed" <;>
        by_cases h3 : t = "failed" <;> by_cases h4 : t = "cancelled" <;>
        simp [validate_transition, valid_next_states, status_transition_enum,
          claimed_allowed, List.contains, h1, h2, h3, h4]
    · simp [validate_transition, valid_next_states, status_transition_enum,
        claimed_allowed, List.contains]
    · simp [validate_transition, valid_next_states, status_transition_enum,
        claimed_allowed, List.contains]
    · simp [validate_transition, valid_next_states, status_transition_enum,
        claimed_allowed, List.contains]
  · intro active
    rfl

/-- C5, witnessed at the running-to-completed transition. -/
theorem c5_status_transitions_witness :
    "running" ∈ workflow_statuses ∧
    validate_transition (some (some "running")) "completed"
        = claimed_allowed "running" "completed" :=
  ⟨by decide, c5_status_transitions.1 "running" (by decide) "completed"⟩

theorem cp_has_id_update (t : CpTable) (id id2 s : String) :
    cp_has_id (cp_update t id s) id2 = cp_has_id t id2 := by
  unfold cp_has_id cp_update
  induction t with
  | nil => rfl
  | cons r rest ih =>
    simp only [List.map_cons, List.any_cons, ih]
    by_cases h : r.1 = id
    · simp [h]
    · simp [h]

theorem cp_filter_update_self (t : CpTable) (id s : String) :
    (cp_update t id s).filter (fun r => r.1 = id)
      = (t.filter (fun r => r.1 = id)).map (fun r => (r.1, s)) := by
  induction t with
  | nil => rfl
  | cons r rest ih =>
    simp only [cp_update] at ih ⊢
    by_cases h : r.1 = id
    · simp [List.filter_cons, h, ih]
    · simp [List.filter_cons, h, ih]

theorem cp_filter_update_ne (t : CpTable) (id id2 s : String) (h : id2 ≠ id) :
    (cp_update t id s).filter (fun r => r.1 = id2) = t.filter (fun r => r.1 = id2) := by
  induction t with
  | nil => rfl
  | cons r rest ih =>
    simp only [cp_update] at ih ⊢
    by_cases hr : r.1 = id
    · have hne2 : r.1 ≠ id2 := by rw [hr]; exact fun hh => h hh.symm
      simp [List.filter_cons, hr, hne2, Ne.symm h, ih]
    · simp [List.filter_cons, hr, ih]

theorem cp_has_id_append_self (t : CpTable) (id s : String) :
    cp_has_id (t ++ [(id, s)]) id = true := by
  simp [cp_has_id, List.any_append]

/-- C4: a resume of a pending checkpoint updates that checkpoint's row to a
terminal status exactly once (the node re-entry touches only the row of the
fresh uuid it generates); the resumed row keeps a single copy, and
checkpoint creation is idempotent on the checkpoint id. -/
theorem c4_resume_updates_row_once (t : CpTable) (origId freshId action : String)
    (_hpend : cp_status t origId = some "pending")
    (hcount : cp_count t origId = 1)
    (hfresh : cp_has_id t freshId = false)
    (hne : origId ≠ freshId) :
    cp_updates_to (resume_trace origId freshId action) origId = 1 ∧
    cp_status (cp_apply_all t (resume_trace origId freshId action)) origId
        = some (api_status_map action) ∧
    (api_status_map action = "approved" ∨ api_status_map action = "edited"
      ∨ api_status_map action = "rejected") ∧
    cp_count (cp_apply_all t (resume_trace origId freshId action)) origId = 1 ∧
    (∀ (t2 : CpTable) (id : String),
      save_checkpoint_created (save_checkpoint_created t2 id) id
        = save_checkpoint_created t2 id) := by
  have hfresh1 : cp_has_id (cp_update t origId (api_status_map action)) freshId = false := by
    rw [cp_has_id_update]; exact hfresh
  have happly : cp_apply_all t (resume_trace origId freshId action)
      = cp_update ((cp_update t origId (api_status_map action)) ++ [(freshId, "pending")])
          freshId (cm_status_map action) := by
    simp [cp_apply_all, resume_trace, cp_apply, save_checkpoint_to_db_caught, hfresh1]
  have hc' : (t.filter (fun r => r.1 = origId)).length = 1 := hcount
  obtain ⟨r, hr⟩ := List.length_eq_one.mp hc'
  have hfilter : (cp_apply_all t (resume_trace origId freshId action)).filter
      (fun rr => rr.1 = origId) = [(r.1, api_status_map action)] := by
    rw [happly, cp_filter_update_ne _ _ _ _ hne, List.filter_append,
      cp_filter_update_self, hr]
    simp [Ne.symm hne]
  refine ⟨?_, ?_, ?_, ?_, ?_⟩
  · simp [cp_updates_to, resume_trace, Ne.symm hne]
  · simp [cp_status, hfilter]
  · unfold api_status_map; split_ifs <;> simp
  · simp [cp_count, hfilter]
  · intro t2 id
    unfold save_checkpoint_created
    by_cases h : cp_has_id t2 id = true
    · simp [h]
    · simp [h, cp_has_id_append_self]

/-- C4, witnessed at a one-row table holding the pending checkpoint cp-1,
resumed with approve_plan while the re-entered node generates cp-2. -/
theorem c4_resume_updates_row_once_witness :
    cp_status [("cp-1", "pending")] "cp-1" = some "pending" ∧
    cp_count [("cp-1", "pending")] "cp-1" = 1 ∧
    cp_has_id [("cp-1", "pending")] "cp-2" = false ∧
    "cp-1" ≠ "cp-2" ∧
    (cp_updates_to (resume_trace "cp-1" "cp-2" "approve_plan") "cp-1" = 1 ∧
     cp_status (cp_apply_all [("cp-1", "pending")] (resume_trace "cp-1" "cp-2" "approve_plan")) "cp-1"
        = some (api_status_map "approve_plan") ∧
     (api_status_map "approve_plan" = "approved" ∨ api_status_map "approve_plan" = "edited"
       ∨ api_status_map "approve_plan" = "rejected") ∧
     cp_count (cp_apply_all [("cp-1", "pending")] (resume_trace "cp-1" "cp-2" "approve_plan")) "cp-1" = 1 ∧
     (∀ (t2 : CpTable) (id : String),
       save_checkpoint_created (save_checkpoint_created t2 id) id
         = save_checkpoint_created t2 id)) :=
  ⟨rfl, rfl, rfl, by decide,
   c4_resume_updates_row_once [("cp-1", "pending")] "cp-1" "cp-2" "approve_plan"
     rfl rfl rfl (by decide)⟩
